import Mathlib

/-!
Verification of the pub/sub subscriber in `grok` (src/subscriber.go).

The per-message receive callback, the retry / dead-letter helpers, the
retry-count parser and the provisioning step are embedded as pure Lean
functions that return the list of observable effects (publishes, acks,
topic/subscription creations, error logs).  External collaborators — the
JSON codec for the configured target type, the transport's answers to
existence checks, creations and publishes, and the user handler — are
parameters gathered in environment structures, matching the spec's
"external collaborator" contracts.
-/

set_option autoImplicit false

namespace Grok

/-- Observable effect of one run of the subscriber code: a publish to a topic
(with payload bytes and attribute map), an acknowledgment of the in-flight
message, an error-log entry, the handler being invoked, or a resource
creation call. -/
inductive Event where
  | publish (topic : String) (data : String) (attrs : List (String × String))
  | ack
  | logError (msg : String)
  | handlerInvoked
  | createTopic (id : String)
  | createSubscription (id : String)
  deriving DecidableEq

/-- Outcome of one handler invocation: normal return with nil error, normal
return with a non-nil error, or a runtime crash with a description. -/
inductive HandlerResult where
  | ok
  | err (msg : String)
  | panicked (msg : String)
  deriving DecidableEq

/-- A delivered pub/sub message: transport-assigned ID, raw payload bytes
(`Data`), and the string-to-string attribute map (as an association list). -/
structure Message where
  id : String
  data : String
  attributes : List (String × String)
  deriving DecidableEq

/-- The PubSubSubscriber fields the per-message pipeline reads
(src/subscriber.go 17-28).  `maxRetriesAttribute` is always set to
"retries" by NewPubSubSubscriber. -/
structure SubscriberConfig where
  topicID : String
  subscriberID : String
  maxRetries : Int
  maxRetriesAttribute : String
  deriving DecidableEq

/-- Go map read `attrs[k]` on the attribute association list. -/
def lookupAttr : List (String × String) → String → Option String
  | [], _ => none
  | (k2, v) :: rest, k => if k2 = k then some v else lookupAttr rest k

/-- Go map write `attrs[k] = v`: overwrite the existing entry or append. -/
def setAttr : List (String × String) → String → String → List (String × String)
  | [], k, v => [(k, v)]
  | (k2, v2) :: rest, k, v =>
      if k2 = k then (k, v) :: rest else (k2, v2) :: setAttr rest k v

/-- Numeric value of a character list, provided it is nonempty and all
decimal digits; `none` on a syntax error. -/
def digitsVal (cs : List Char) : Option Nat :=
  if cs.isEmpty then none
  else if cs.all Char.isDigit then
    some (cs.foldl (fun acc c => acc * 10 + (c.toNat - 48)) 0)
  else none

/-- Largest value of Go's 64-bit `int`. -/
def intMax : Int := 2 ^ 63 - 1

/-- Smallest value of Go's 64-bit `int`. -/
def intMin : Int := -(2 ^ 63)

/-- Split an optional leading sign off a decimal literal, returning the sign
and the remaining characters. -/
def signSplit (cs : List Char) : Int × List Char :=
  match cs with
  | '+' :: rest => (1, rest)
  | '-' :: rest => (-1, rest)
  | other => (1, other)

/-- Embedding of Go `strconv.Atoi` with its error discarded, as getRetries
uses it: a syntactically malformed string yields 0, an out-of-range decimal
clamps to the 64-bit int bounds (Go returns the bound with ErrRange). -/
def goAtoi (s : String) : Int :=
  match digitsVal (signSplit s.data).2 with
  | none => 0
  | some n =>
      let v : Int := (signSplit s.data).1 * (n : Int)
      if v > intMax then intMax else if v < intMin then intMin else v

/-- Whether Go `strconv.Atoi` accepts the string syntactically: an optional
sign followed by at least one decimal digit and nothing else. -/
def goIntSyntax (s : String) : Bool :=
  !(signSplit s.data).2.isEmpty && (signSplit s.data).2.all Char.isDigit

/-- Embedding of PubSubSubscriber.getRetries (src/subscriber.go 233-246):
read the retry-count attribute, defaulting to 0 when the key is absent;
Atoi's error value is discarded. -/
def getRetries (cfg : SubscriberConfig) (msg : Message) : Int :=
  match lookupAttr msg.attributes cfg.maxRetriesAttribute with
  | none => 0
  | some a => goAtoi a

/-- External collaborators of the per-message pipeline: the JSON codec for
the configured target type (`decode` / `encode`), the user handler, and the
transport's answers to topic-existence checks, topic creations and
publishes (`none` / `ok` means the call succeeds). -/
structure Env (B : Type) where
  decode : String → Except String B
  encode : B → String
  handler : B → HandlerResult
  topicExistsRes : String → Except String Bool
  createTopicRes : String → Option String
  publishRes : String → String → List (String × String) → Option String

/-- Modelled from the spec: `createTopicIfNotExists` is called from
src/subscriber.go but defined in a repository file that is not under src/.
Spec §4.1: check existence, return the topic if present, otherwise create
it, surfacing any existence-check or creation error to the caller. -/
def createTopicIfNotExists (topicExistsRes : String → Except String Bool)
    (createTopicRes : String → Option String) (topicID : String) :
    List Event × Except String String :=
  match topicExistsRes topicID with
  | Except.error e => ([], Except.error e)
  | Except.ok true => ([], Except.ok topicID)
  | Except.ok false =>
      match createTopicRes topicID with
      | some e => ([Event.createTopic topicID], Except.error e)
      | none => ([Event.createTopic topicID], Except.ok topicID)

/-- Modelled from the spec: the producer's `PublishWihAttribrutes` is not
under src/.  Spec §4.2: publish the payload bytes to the named topic with
the attribute map attached verbatim; no internal retry — the error is
returned to the caller. -/
def publishCall {B : Type} (env : Env B) (topic : String) (data : String)
    (attrs : List (String × String)) : List Event × Option String :=
  match env.publishRes topic data attrs with
  | some e => ([], some e)
  | none => ([Event.publish topic data attrs], none)

/-- Embedding of PubSubSubscriber.dlq (src/subscriber.go 216-231): derive
the topic name `<topicID>_dlq`, ensure it exists (on failure return without
publishing), then publish the message's raw `Data` with a fresh attribute
map holding only the error description. -/
def dlqCall {B : Type} (cfg : SubscriberConfig) (env : Env B) (data e : String) :
    List Event × Option String :=
  match createTopicIfNotExists env.topicExistsRes env.createTopicRes (cfg.topicID ++ "_dlq") with
  | (evs, Except.error ce) => (evs, some ce)
  | (evs, Except.ok _) =>
      let r := publishCall env (cfg.topicID ++ "_dlq") data [("error", e)]
      (evs ++ r.1, r.2)

/-- Embedding of PubSubSubscriber.retry (src/subscriber.go 207-214):
increment the retry count, store it back into the attribute map, and
republish the handled body (reserialized) with the updated attributes to
the subscriber's own topic. -/
def retryCall {B : Type} (cfg : SubscriberConfig) (env : Env B) (msg : Message) (body : B) :
    List Event × Option String :=
  let retries := getRetries cfg msg + 1
  let attrs := setAttr msg.attributes cfg.maxRetriesAttribute (toString retries)
  publishCall env cfg.topicID (env.encode body) attrs

/-- Embedding of the retries switch in Run (src/subscriber.go 153-166):
at or above the maximum dead-letter the message, otherwise republish it
with the incremented counter. -/
def classify {B : Type} (cfg : SubscriberConfig) (env : Env B) (msg : Message) (body : B)
    (e : String) : List Event × Option String :=
  if getRetries cfg msg ≥ cfg.maxRetries then dlqCall cfg env msg.data e
  else retryCall cfg env msg body

/-- Result of one receive callback: the emitted events, and the description
of a panic escaping the callback (`none` means any crash was contained). -/
structure CallbackResult where
  events : List Event
  escapedPanic : Option String
  deriving DecidableEq

/-- The error log the classification step writes when its publish fails. -/
def logOnErr : Option String → List Event
  | some pe => [Event.logError pe]
  | none => []

/-- Embedding of the receive callback in PubSubSubscriber.Run
(src/subscriber.go 118-174), including the deferred block exactly as
written: the deferred guard calls `recover()` but then tests the captured
`err` variable, not recover's result.  Hence on a handler crash (where
`err` is still nil) the panic is swallowed and nothing further happens,
while on a returned handler error the deferred dlq-and-ack block fires a
second time after the main path. -/
def receiveCallback {B : Type} (cfg : SubscriberConfig) (env : Env B) (msg : Message) :
    CallbackResult :=
  match env.decode msg.data with
  | Except.error ue =>
      -- unmarshal failure: dlq (result discarded), ack, return before the
      -- deferred block is even registered
      ⟨(dlqCall cfg env msg.data ue).1 ++ [Event.ack], none⟩
  | Except.ok body =>
      match env.handler body with
      | HandlerResult.panicked _ =>
          -- err was never assigned a non-nil value: recover() stops the
          -- panic, the err-guarded dlq/ack block is skipped, no ack happens
          ⟨[Event.handlerInvoked], none⟩
      | HandlerResult.ok =>
          -- err = nil: straight to the ack; the deferred block is skipped
          ⟨[Event.handlerInvoked, Event.ack], none⟩
      | HandlerResult.err e =>
          -- classification publish, its failure logged only, then ack;
          -- then the deferred block sees err ≠ nil: dlq again, ack again
          let c := classify cfg env msg body e
          let d := dlqCall cfg env msg.data e
          ⟨[Event.handlerInvoked] ++ c.1 ++ logOnErr c.2 ++ [Event.ack] ++ d.1 ++ [Event.ack],
            none⟩

/-- Transport answers used by the provisioning step: subscription existence
checks and creations in addition to the topic calls. -/
structure ProvEnv where
  subExistsRes : String → Except String Bool
  createSubRes : String → Option String
  topicExistsRes : String → Except String Bool
  createTopicRes : String → Option String

/-- Result of the provisioning step: creation events, the returned
subscription handle (`none` models the nil pointer returned on the
creation-error paths), and the returned error. -/
structure ProvResult where
  events : List Event
  sub : Option String
  err : Option String
  deriving DecidableEq

/-- Embedding of createSubscriptionIfNotExists (src/subscriber.go 177-205):
existence check first (on error or presence return the handle with that
error), otherwise ensure the topic exists and create the subscription,
returning nil with the error when either creation fails. -/
def createSubscriptionIfNotExists (env : ProvEnv) (subscriberID topicID : String) : ProvResult :=
  match env.subExistsRes subscriberID with
  | Except.error e => ⟨[], some subscriberID, some e⟩
  | Except.ok true => ⟨[], some subscriberID, none⟩
  | Except.ok false =>
      match createTopicIfNotExists env.topicExistsRes env.createTopicRes topicID with
      | (evs, Except.error e) => ⟨evs, none, some e⟩
      | (evs, Except.ok _) =>
          match env.createSubRes subscriberID with
          | some e => ⟨evs ++ [Event.createSubscription subscriberID], none, some e⟩
          | none => ⟨evs ++ [Event.createSubscription subscriberID], some subscriberID, none⟩

/-- How Run's startup ends: a nil-pointer fault, an error returned to the
caller, or entry into the receive loop. -/
inductive StartOutcome where
  | nilDeref
  | failed (e : String)
  | receiving (subID : String)
  deriving DecidableEq

/-- Embedding of the startup part of Run (src/subscriber.go 107-117): the
returned subscription's ReceiveSettings field is written on line 109,
before the error check on line 111, so a nil subscription faults instead
of reaching the error return. -/
def runStartup (env : ProvEnv) (cfg : SubscriberConfig) : StartOutcome :=
  let r := createSubscriptionIfNotExists env cfg.subscriberID cfg.topicID
  match r.sub with
  | none => StartOutcome.nilDeref
  | some s =>
      match r.err with
      | some e => StartOutcome.failed e
      | none => StartOutcome.receiving s

/-- Resource state of the transport: which topic and subscription IDs exist. -/
structure PubSubState where
  topics : List String
  subs : List String
  deriving DecidableEq

/-- The fault-free transport environment induced by a resource state:
existence checks answer from the state and creations succeed. -/
def stateProvEnv (st : PubSubState) : ProvEnv :=
  ⟨fun id => Except.ok (st.subs.contains id), fun _ => none,
   fun id => Except.ok (st.topics.contains id), fun _ => none⟩

/-- Effect of one creation event on the resource state. -/
def applyEvent (st : PubSubState) (e : Event) : PubSubState :=
  match e with
  | Event.createTopic t => ⟨t :: st.topics, st.subs⟩
  | Event.createSubscription s2 => ⟨st.topics, s2 :: st.subs⟩
  | _ => st

/-- Effect of a list of events on the resource state. -/
def applyEvents (st : PubSubState) (evs : List Event) : PubSubState :=
  evs.foldl applyEvent st

/-- Whether an event is the acknowledgment. -/
def isAck : Event → Bool
  | Event.ack => true
  | _ => false

/-- Number of acknowledgments in an event list. -/
def countAcks (evs : List Event) : Nat := (evs.filter isAck).length

/-- Whether an event is a publish to the given topic. -/
def isPublishTo (t : String) : Event → Bool
  | Event.publish t2 _ _ => t2 == t
  | _ => false

/-- The publishes to a given topic within an event list. -/
def publishesTo (t : String) (evs : List Event) : List Event :=
  evs.filter (isPublishTo t)

/-- Example configuration: topic "orders", subscription "orders-sub", at
most 2 retries, the fixed "retries" attribute key. -/
def cfgEx : SubscriberConfig := ⟨"orders", "orders-sub", 2, "retries"⟩

/-- Environment whose handler returns the error "bad"; codec and transport
always succeed. -/
def envErr : Env Unit :=
  ⟨fun _ => Except.ok (), fun _ => "ok-body", fun _ => HandlerResult.err "bad",
   fun _ => Except.ok true, fun _ => none, fun _ _ _ => none⟩

/-- Environment whose handler crashes with description "boom". -/
def envCrash : Env Unit :=
  ⟨fun _ => Except.ok (), fun _ => "ok-body", fun _ => HandlerResult.panicked "boom",
   fun _ => Except.ok true, fun _ => none, fun _ _ _ => none⟩

/-- Environment whose decoder rejects every payload. -/
def envBadPayload : Env Unit :=
  ⟨fun _ => Except.error "invalid character", fun _ => "ok-body", fun _ => HandlerResult.ok,
   fun _ => Except.ok true, fun _ => none, fun _ _ _ => none⟩

/-- Environment whose handler errors and whose every publish fails. -/
def envPubFail : Env Unit :=
  ⟨fun _ => Except.ok (), fun _ => "ok-body", fun _ => HandlerResult.err "bad",
   fun _ => Except.ok true, fun _ => none, fun _ _ _ => some "publish refused"⟩

/-- A first-delivery message: no "retries" attribute. -/
def msgFresh : Message := ⟨"m1", "payload", []⟩

/-- A message whose retry count equals the example maximum. -/
def msgAtMax : Message := ⟨"m2", "payload", [("retries", "2")]⟩

/-- A message with a malformed "retries" attribute. -/
def msgBadAttr : Message := ⟨"m3", "payload", [("retries", "abc")]⟩

/-- Provisioning environment where the subscription is absent and topic
creation fails. -/
def provEnvCreateFail : ProvEnv :=
  ⟨fun _ => Except.ok false, fun _ => none,
   fun _ => Except.ok false, fun _ => some "create denied"⟩

/-- Acknowledgment counting distributes over list append. -/
theorem countAcks_append (a b : List Event) :
    countAcks (a ++ b) = countAcks a + countAcks b := by
  simp [countAcks, List.filter_append]

/-- The create-if-absent step emits no acknowledgment. -/
theorem countAcks_createTopicIfNotExists (f : String → Except String Bool)
    (g : String → Option String) (t : String) :
    countAcks (createTopicIfNotExists f g t).1 = 0 := by
  unfold createTopicIfNotExists
  cases hf : f t with
  | error e => rfl
  | ok b =>
      cases b
      · cases hg : g t <;> rfl
      · rfl

/-- A publish call emits no acknowledgment. -/
theorem countAcks_publishCall {B : Type} (env : Env B) (t d : String)
    (attrs : List (String × String)) :
    countAcks (publishCall env t d attrs).1 = 0 := by
  unfold publishCall
  cases h : env.publishRes t d attrs <;> rfl

/-- The dlq helper emits no acknowledgment. -/
theorem countAcks_dlqCall {B : Type} (cfg : SubscriberConfig) (env : Env B) (d e : String) :
    countAcks (dlqCall cfg env d e).1 = 0 := by
  have hct := countAcks_createTopicIfNotExists env.topicExistsRes env.createTopicRes
    (cfg.topicID ++ "_dlq")
  have hpc := countAcks_publishCall env (cfg.topicID ++ "_dlq") d [("error", e)]
  unfold dlqCall
  cases hc : createTopicIfNotExists env.topicExistsRes env.createTopicRes
      (cfg.topicID ++ "_dlq") with
  | mk evs r =>
      rw [hc] at hct
      cases r with
      | error ce => simpa using hct
      | ok tt =>
          dsimp only
          rw [countAcks_append]
          simp only at hct
          omega

/-- The retry helper emits no acknowledgment. -/
theorem countAcks_retryCall {B : Type} (cfg : SubscriberConfig) (env : Env B)
    (msg : Message) (body : B) :
    countAcks (retryCall cfg env msg body).1 = 0 := by
  unfold retryCall
  apply countAcks_publishCall

/-- The classification step emits no acknowledgment. -/
theorem countAcks_classify {B : Type} (cfg : SubscriberConfig) (env : Env B)
    (msg : Message) (body : B) (e : String) :
    countAcks (classify cfg env msg body e).1 = 0 := by
  unfold classify
  split
  · exact countAcks_dlqCall cfg env msg.data e
  · exact countAcks_retryCall cfg env msg body

/-- The error log emits no acknowledgment. -/
theorem countAcks_logOnErr (r : Option String) : countAcks (logOnErr r) = 0 := by
  cases r <;> rfl

/-- One acknowledgment in a singleton ack list. -/
theorem countAcks_single_ack : countAcks [Event.ack] = 1 := rfl

/-- No acknowledgment in a singleton handler-invocation list. -/
theorem countAcks_handlerInvoked : countAcks [Event.handlerInvoked] = 0 := rfl

/-- No acknowledgment in a singleton publish list. -/
theorem countAcks_publish (t d : String) (a : List (String × String)) :
    countAcks [Event.publish t d a] = 0 := rfl

/-- When the dead-letter topic exists and the publish succeeds, the dlq
helper publishes the raw payload with the single error attribute. -/
theorem dlqCall_success {B : Type} (cfg : SubscriberConfig) (env : Env B) (d e : String)
    (hte : env.topicExistsRes (cfg.topicID ++ "_dlq") = Except.ok true)
    (hpub : env.publishRes (cfg.topicID ++ "_dlq") d [("error", e)] = none) :
    dlqCall cfg env d e
      = ([Event.publish (cfg.topicID ++ "_dlq") d [("error", e)]], none) := by
  unfold dlqCall createTopicIfNotExists publishCall
  rw [hte, hpub]
  rfl

/-- The derived dead-letter topic name differs from the topic itself. -/
theorem dlq_topic_ne (t : String) : (t ++ "_dlq") ≠ t := by
  intro h
  have h2 := congrArg String.length h
  rw [String.length_append] at h2
  have h3 : "_dlq".length = 4 := rfl
  rw [h3] at h2
  omega

/-- Claim C1 (code bug): at a concrete input whose handler crashes, the
panic is contained (nothing escapes the callback) but the callback
publishes nothing and never acknowledges — the deferred guard tests the
stale `err` variable, which is nil, instead of recover's result. -/
theorem handler_crash_contained_but_dropped :
    receiveCallback cfgEx envCrash msgFresh = ⟨[Event.handlerInvoked], none⟩ := rfl

/-- Claim C2 (code bug): with the retry count below the maximum, the
classification step publishes one retry to the topic and acks, but the
deferred block then also dead-letters the raw payload and acks again —
two publishes and two acks in total, not exactly one publish. -/
theorem retry_path_double_publish_double_ack :
    (receiveCallback cfgEx envErr msgFresh).events
      = [Event.handlerInvoked,
         Event.publish "orders" "ok-body" [("retries", "1")], Event.ack,
         Event.publish "orders_dlq" "payload" [("error", "bad")], Event.ack] := rfl

/-- Claim C3 (code bug): with the retry count at the maximum the
dead-letter topic receives two copies of the payload — the classification
dlq and then the deferred block's dlq — instead of exactly one. -/
theorem dlq_path_double_dlq_publish :
    (receiveCallback cfgEx envErr msgAtMax).events
      = [Event.handlerInvoked,
         Event.publish "orders_dlq" "payload" [("error", "bad")], Event.ack,
         Event.publish "orders_dlq" "payload" [("error", "bad")], Event.ack] := rfl

/-- Claim C6 (code bug): when the subscription is absent and topic creation
fails, Run dereferences the nil subscription returned by the provisioning
step before its error check, faulting instead of returning the error. -/
theorem startup_creation_error_faults :
    runStartup provEnvCreateFail cfgEx = StartOutcome.nilDeref := rfl

/-- Claim C7 counterexample: a message whose retry count equals the
configured maximum is still delivered to the handler — the code invokes
the handler before ever consulting the retry count. -/
theorem handler_still_invoked_at_max :
    Event.handlerInvoked ∈ (receiveCallback cfgEx envErr msgAtMax).events := by
  show Event.handlerInvoked ∈
    [Event.handlerInvoked,
     Event.publish "orders_dlq" "payload" [("error", "bad")], Event.ack,
     Event.publish "orders_dlq" "payload" [("error", "bad")], Event.ack]
  exact List.mem_cons_self _ _

/-- Claim C4: for a message that deserializes and whose handler returns a
non-nil error, after the main path's classification publish and first Ack,
the deferred block observes the still-non-nil `err` (recover having
returned nil) and additionally publishes the original raw payload to the
dead-letter topic and acknowledges a second time: the trace ends with that
dlq publish and a second ack, for two acks in total. -/
theorem deferred_block_fires_on_handler_error {B : Type} (cfg : SubscriberConfig)
    (env : Env B) (msg : Message) (body : B) (e : String)
    (hdec : env.decode msg.data = Except.ok body)
    (hh : env.handler body = HandlerResult.err e)
    (hte : env.topicExistsRes (cfg.topicID ++ "_dlq") = Except.ok true)
    (hpub : env.publishRes (cfg.topicID ++ "_dlq") msg.data [("error", e)] = none) :
    ∃ pre, (receiveCallback cfg env msg).events
        = pre ++ [Event.publish (cfg.topicID ++ "_dlq") msg.data [("error", e)], Event.ack]
      ∧ Event.ack ∈ pre
      ∧ countAcks (receiveCallback cfg env msg).events = 2 := by
  have hd := dlqCall_success cfg env msg.data e hte hpub
  have hev : (receiveCallback cfg env msg).events
      = [Event.handlerInvoked] ++ (classify cfg env msg body e).1
          ++ logOnErr (classify cfg env msg body e).2 ++ [Event.ack]
          ++ [Event.publish (cfg.topicID ++ "_dlq") msg.data [("error", e)]] ++ [Event.ack] := by
    unfold receiveCallback
    rw [hdec]
    dsimp only
    rw [hh]
    dsimp only
    rw [hd]
  refine ⟨[Event.handlerInvoked] ++ (classify cfg env msg body e).1
      ++ logOnErr (classify cfg env msg body e).2 ++ [Event.ack], ?_, ?_, ?_⟩
  · rw [hev]
    simp [List.append_assoc]
  · simp
  · rw [hev]
    simp only [countAcks_append, countAcks_classify, countAcks_logOnErr,
      countAcks_single_ack, countAcks_handlerInvoked, countAcks_publish]

/-- Claim C5: for a message whose payload fails deserialization, the
dead-letter topic receives the original raw bytes with the parse failure as
the error attribute, the message is acknowledged exactly once, the handler
is never invoked, and nothing is published to the original topic. -/
theorem deserialize_failure_dead_letters_verbatim {B : Type} (cfg : SubscriberConfig)
    (env : Env B) (msg : Message) (ue : String)
    (hdec : env.decode msg.data = Except.error ue)
    (hte : env.topicExistsRes (cfg.topicID ++ "_dlq") = Except.ok true)
    (hpub : env.publishRes (cfg.topicID ++ "_dlq") msg.data [("error", ue)] = none) :
    (receiveCallback cfg env msg).events
        = [Event.publish (cfg.topicID ++ "_dlq") msg.data [("error", ue)], Event.ack]
      ∧ countAcks (receiveCallback cfg env msg).events = 1
      ∧ Event.handlerInvoked ∉ (receiveCallback cfg env msg).events
      ∧ publishesTo cfg.topicID (receiveCallback cfg env msg).events = [] := by
  have hd := dlqCall_success cfg env msg.data ue hte hpub
  have hev : (receiveCallback cfg env msg).events
      = [Event.publish (cfg.topicID ++ "_dlq") msg.data [("error", ue)], Event.ack] := by
    unfold receiveCallback
    rw [hdec]
    dsimp only
    rw [hd]
    rfl
  have hne : ((cfg.topicID ++ "_dlq") == cfg.topicID) = false :=
    beq_eq_false_iff_ne.2 (dlq_topic_ne cfg.topicID)
  refine ⟨hev, ?_, ?_, ?_⟩
  · rw [hev]
    rfl
  · rw [hev]
    simp
  · rw [hev]
    simp [publishesTo, List.filter, isPublishTo, hne]

/-- Claim C7 (amended): a message whose retry count has reached the
configured maximum is still delivered to the handler; the guarantee the
code provides is that, when its handler then returns an error, the message
is dead-lettered and no retry is republished to the original topic. -/
theorem at_max_dead_letter_no_retry {B : Type} (cfg : SubscriberConfig)
    (env : Env B) (msg : Message) (body : B) (e : String)
    (hdec : env.decode msg.data = Except.ok body)
    (hh : env.handler body = HandlerResult.err e)
    (hmax : getRetries cfg msg ≥ cfg.maxRetries)
    (hte : env.topicExistsRes (cfg.topicID ++ "_dlq") = Except.ok true)
    (hpub : env.publishRes (cfg.topicID ++ "_dlq") msg.data [("error", e)] = none) :
    Event.handlerInvoked ∈ (receiveCallback cfg env msg).events
      ∧ publishesTo cfg.topicID (receiveCallback cfg env msg).events = []
      ∧ Event.publish (cfg.topicID ++ "_dlq") msg.data [("error", e)]
          ∈ (receiveCallback cfg env msg).events := by
  have hd := dlqCall_success cfg env msg.data e hte hpub
  have hc : classify cfg env msg body e
      = ([Event.publish (cfg.topicID ++ "_dlq") msg.data [("error", e)]], none) := by
    unfold classify
    rw [if_pos hmax]
    exact hd
  have hev : (receiveCallback cfg env msg).events
      = [Event.handlerInvoked,
         Event.publish (cfg.topicID ++ "_dlq") msg.data [("error", e)], Event.ack,
         Event.publish (cfg.topicID ++ "_dlq") msg.data [("error", e)], Event.ack] := by
    unfold receiveCallback
    rw [hdec]
    dsimp only
    rw [hh]
    dsimp only
    rw [hc, hd]
    rfl
  have hne : ((cfg.topicID ++ "_dlq") == cfg.topicID) = false :=
    beq_eq_false_iff_ne.2 (dlq_topic_ne cfg.topicID)
  refine ⟨?_, ?_, ?_⟩
  · rw [hev]
    exact List.mem_cons_self _ _
  · rw [hev]
    simp [publishesTo, List.filter, isPublishTo, hne]
  · rw [hev]
    exact List.mem_cons_of_mem _ (List.mem_cons_self _ _)

/-- A string Go's Atoi rejects syntactically parses to 0 once the error is
discarded. -/
theorem goAtoi_eq_zero_of_bad_syntax (a : String) (h : goIntSyntax a = false) :
    goAtoi a = 0 := by
  unfold goIntSyntax at h
  unfold goAtoi
  have hd : digitsVal (signSplit a.data).2 = none := by
    unfold digitsVal
    cases he : (signSplit a.data).2.isEmpty with
    | true => simp [he]
    | false =>
        cases ha : (signSplit a.data).2.all Char.isDigit with
        | true =>
            rw [he, ha] at h
            simp at h
        | false => simp [he, ha]
  rw [hd]

/-- Claim C8: reading the retry count when the "retries" attribute is
missing, or present but not parsable as a decimal integer, yields 0 (the
embedding is a total function, so no error or fault is possible). -/
theorem getRetries_missing_or_malformed_zero (cfg : SubscriberConfig) (msg : Message)
    (h : lookupAttr msg.attributes cfg.maxRetriesAttribute = none
        ∨ ∃ a, lookupAttr msg.attributes cfg.maxRetriesAttribute = some a
            ∧ goIntSyntax a = false) :
    getRetries cfg msg = 0 := by
  unfold getRetries
  rcases h with h | ⟨a, ha, hbad⟩
  · rw [h]
  · rw [ha]
    exact goAtoi_eq_zero_of_bad_syntax a hbad

/-- In the fault-free transport the provisioning step takes its fast path
whenever the subscription already exists: no creations, the handle is
returned, no error. -/
theorem stateProv_fast (st : PubSubState) (sid tid : String)
    (h : st.subs.contains sid = true) :
    createSubscriptionIfNotExists (stateProvEnv st) sid tid = ⟨[], some sid, none⟩ := by
  unfold createSubscriptionIfNotExists stateProvEnv
  dsimp only
  rw [h]

/-- After one provisioning call in the fault-free transport, the
subscription exists in the resulting state. -/
theorem first_call_establishes (st : PubSubState) (sid tid : String) :
    ((applyEvents st
        (createSubscriptionIfNotExists (stateProvEnv st) sid tid).events).subs.contains sid)
      = true := by
  unfold createSubscriptionIfNotExists stateProvEnv createTopicIfNotExists
  dsimp only
  cases hs : st.subs.contains sid with
  | true =>
      dsimp [applyEvents]
      exact hs
  | false =>
      cases ht : st.topics.contains tid with
      | true =>
          dsimp [applyEvents, applyEvent]
          simp
      | false =>
          dsimp [applyEvents, applyEvent]
          simp

/-- Claim C9: provisioning is idempotent — after a first
create-subscription-if-not-exists call in the fault-free transport, a
second call with the same subscription and topic IDs performs no topic or
subscription creation and returns the existing subscription with no
error. -/
theorem provisioning_idempotent (st : PubSubState) (sid tid : String) :
    createSubscriptionIfNotExists
        (stateProvEnv (applyEvents st
          (createSubscriptionIfNotExists (stateProvEnv st) sid tid).events))
        sid tid
      = ⟨[], some sid, none⟩ :=
  stateProv_fast _ sid tid (first_call_establishes st sid tid)

/-- Claim C10: when the handler returns a non-nil error, a failure of the
classification step's retry or dead-letter publish is logged and does not
change the acknowledgment decision — the original message is still
acknowledged. -/
theorem classification_publish_failure_logged_still_acked {B : Type}
    (cfg : SubscriberConfig) (env : Env B) (msg : Message) (body : B) (e pe : String)
    (hdec : env.decode msg.data = Except.ok body)
    (hh : env.handler body = HandlerResult.err e)
    (hc : (classify cfg env msg body e).2 = some pe) :
    Event.logError pe ∈ (receiveCallback cfg env msg).events
      ∧ Event.ack ∈ (receiveCallback cfg env msg).events := by
  unfold receiveCallback
  rw [hdec]
  dsimp only
  rw [hh]
  dsimp only
  rw [hc]
  constructor
  · simp [logOnErr]
  · simp

/-- Witness for the C4 theorem at a concrete input: topic "orders", max 2
retries, fresh message, handler error "bad". -/
theorem deferred_block_fires_on_handler_error_witness :
    ∃ pre, (receiveCallback cfgEx envErr msgFresh).events
        = pre ++ [Event.publish (cfgEx.topicID ++ "_dlq") msgFresh.data [("error", "bad")],
            Event.ack]
      ∧ Event.ack ∈ pre
      ∧ countAcks (receiveCallback cfgEx envErr msgFresh).events = 2 :=
  deferred_block_fires_on_handler_error cfgEx envErr msgFresh () "bad" rfl rfl rfl rfl

/-- Witness for the C5 theorem at a concrete input: undecodable payload. -/
theorem deserialize_failure_dead_letters_verbatim_witness :
    (receiveCallback cfgEx envBadPayload msgFresh).events
        = [Event.publish (cfgEx.topicID ++ "_dlq") msgFresh.data
            [("error", "invalid character")], Event.ack]
      ∧ countAcks (receiveCallback cfgEx envBadPayload msgFresh).events = 1
      ∧ Event.handlerInvoked ∉ (receiveCallback cfgEx envBadPayload msgFresh).events
      ∧ publishesTo cfgEx.topicID (receiveCallback cfgEx envBadPayload msgFresh).events = [] :=
  deserialize_failure_dead_letters_verbatim cfgEx envBadPayload msgFresh
    "invalid character" rfl rfl rfl

/-- Witness for the amended C7 theorem at a concrete input: a message whose
retry count equals the maximum of 2. -/
theorem at_max_dead_letter_no_retry_witness :
    Event.handlerInvoked ∈ (receiveCallback cfgEx envErr msgAtMax).events
      ∧ publishesTo cfgEx.topicID (receiveCallback cfgEx envErr msgAtMax).events = []
      ∧ Event.publish (cfgEx.topicID ++ "_dlq") msgAtMax.data [("error", "bad")]
          ∈ (receiveCallback cfgEx envErr msgAtMax).events :=
  at_max_dead_letter_no_retry cfgEx envErr msgAtMax () "bad" rfl rfl (by decide) rfl rfl

/-- Witness for the C8 theorem at a concrete input: a "retries" attribute
holding the unparsable string "abc". -/
theorem getRetries_missing_or_malformed_zero_witness :
    getRetries cfgEx msgBadAttr = 0 :=
  getRetries_missing_or_malformed_zero cfgEx msgBadAttr (Or.inr ⟨"abc", rfl, rfl⟩)

/-- Witness for the C10 theorem at a concrete input: every publish fails
with "publish refused", yet the message is still acknowledged. -/
theorem classification_publish_failure_logged_still_acked_witness :
    Event.logError "publish refused" ∈ (receiveCallback cfgEx envPubFail msgFresh).events
      ∧ Event.ack ∈ (receiveCallback cfgEx envPubFail msgFresh).events :=
  classification_publish_failure_logged_still_acked cfgEx envPubFail msgFresh () "bad"
    "publish refused" rfl rfl rfl

end Grok
